import Mathlib

/-!
Verification development for the `shaban/macaudio` repository.

The repository's visible source is a C header (`src/native/macaudio.h`,
`src/session/native/session.h`) declaring a binding over an external audio
framework; it contains function signatures and struct layouts but no
implementation bodies.  Two kinds of definitions appear below:

* an exact embedding of the header's declarations (`CDecl`, `macaudioHeader`),
  transcribed signature by signature from the source; and
* behavioural models of the operations, each marked `Modelled from the spec:`,
  since the implementation bodies are not part of the repository.
-/

/-- Error kinds named by the specification (§4, §7). -/
inductive Err
  | invalidFormat
  | graphIncomplete
  | hardwareUnavailable
  | invalidState
  | alreadyAttached
  | engineNotReady
  | busOutOfRange
  | formatMismatch
  | destinationBusOccupied
  | nodeNotAttached
  | duplicateKey
  | notFound
  | notLoaded
  | outOfRange
  deriving DecidableEq, Repr

/-- C types appearing in the header's function signatures. -/
inductive CType
  | void
  | bool
  | int
  | float
  | double
  | constCharPtr
  | voidPtr
  | boolPtr
  | intPtr
  | floatPtr
  | doublePtr
  | constCharPtrPtr
  | ptr (struct : String)
  | structVal (struct : String)
  deriving DecidableEq, Repr

/-- One C function declaration: name, return type, parameter types in order. -/
structure CDecl where
  name : String
  ret : CType
  params : List CType
  deriving DecidableEq, Repr

/-- First block of the header transcription (see `macaudioHeader`). -/
def macaudioHeaderA : List CDecl := [
  ⟨"audioengine_new", .structVal "AudioEngineResult", []⟩,
  ⟨"audioengine_prepare", .void, [.ptr "AudioEngine"]⟩,
  ⟨"audioengine_start", .constCharPtr, [.ptr "AudioEngine"]⟩,
  ⟨"audioengine_stop", .void, [.ptr "AudioEngine"]⟩,
  ⟨"audioengine_pause", .void, [.ptr "AudioEngine"]⟩,
  ⟨"audioengine_reset", .void, [.ptr "AudioEngine"]⟩,
  ⟨"audioengine_is_running", .constCharPtr, [.ptr "AudioEngine"]⟩,
  ⟨"audioengine_destroy", .void, [.ptr "AudioEngine"]⟩,
  ⟨"audioengine_attach", .constCharPtr, [.ptr "AudioEngine", .voidPtr]⟩,
  ⟨"audioengine_detach", .constCharPtr, [.ptr "AudioEngine", .voidPtr]⟩,
  ⟨"audioengine_connect", .constCharPtr,
    [.ptr "AudioEngine", .voidPtr, .voidPtr, .int, .int]⟩,
  ⟨"audioengine_connect_with_format", .constCharPtr,
    [.ptr "AudioEngine", .voidPtr, .voidPtr, .int, .int, .voidPtr]⟩,
  ⟨"audioengine_disconnect_node_input", .constCharPtr,
    [.ptr "AudioEngine", .voidPtr, .int]⟩,
  ⟨"audioengine_disconnect_node_output", .constCharPtr,
    [.ptr "AudioEngine", .voidPtr, .int]⟩,
  ⟨"audioengine_output_node", .structVal "AudioEngineResult", [.ptr "AudioEngine"]⟩,
  ⟨"audioengine_input_node", .structVal "AudioEngineResult", [.ptr "AudioEngine"]⟩,
  ⟨"audioengine_main_mixer_node", .structVal "AudioEngineResult", [.ptr "AudioEngine"]⟩,
  ⟨"audioengine_create_mixer_node", .structVal "AudioEngineResult", [.ptr "AudioEngine"]⟩,
  ⟨"audioengine_set_mixer_volume", .constCharPtr, [.ptr "AudioEngine", .voidPtr, .float]⟩,
  ⟨"audioengine_get_mixer_volume", .float, [.ptr "AudioEngine", .voidPtr]⟩
]

/-- Block 2 of the header transcription (see `macaudioHeader`). -/
def macaudioHeaderB : List CDecl := [
  ⟨"audioengine_set_mixer_pan", .void, [.ptr "AudioEngine", .float]⟩,
  ⟨"audioengine_create_format", .structVal "AudioEngineResult", [.double, .int, .int]⟩,
  ⟨"audioengine_release_format", .void, [.voidPtr]⟩,
  ⟨"audioengine_set_buffer_size", .constCharPtr, [.ptr "AudioEngine", .int]⟩,
  ⟨"audioengine_remove_taps", .void, [.ptr "AudioEngine"]⟩,
  ⟨"audioformat_new_mono", .structVal "AudioFormatResult", [.double]⟩,
  ⟨"audioformat_new_stereo", .structVal "AudioFormatResult", [.double]⟩,
  ⟨"audioformat_new_with_channels", .structVal "AudioFormatResult",
    [.double, .int, .bool]⟩,
  ⟨"audioformat_new_from_spec", .structVal "AudioFormatResult",
    [.double, .int, .bool]⟩,
  ⟨"audioformat_get_format", .structVal "AudioFormatResult", [.ptr "AudioFormat"]⟩,
  ⟨"audioformat_get_sample_rate", .double, [.ptr "AudioFormat"]⟩,
  ⟨"audioformat_get_channel_count", .int, [.ptr "AudioFormat"]⟩,
  ⟨"audioformat_is_interleaved", .bool, [.ptr "AudioFormat"]⟩,
  ⟨"audioformat_is_equal", .constCharPtr,
    [.ptr "AudioFormat", .ptr "AudioFormat", .boolPtr]⟩,
  ⟨"audioformat_log_info", .void, [.ptr "AudioFormat"]⟩,
  ⟨"audioformat_destroy", .void, [.ptr "AudioFormat"]⟩,
  ⟨"audionode_input_format_for_bus", .structVal "AudioNodeResult", [.voidPtr, .int]⟩,
  ⟨"audionode_output_format_for_bus", .structVal "AudioNodeResult", [.voidPtr, .int]⟩,
  ⟨"audionode_get_number_of_inputs", .constCharPtr, [.voidPtr, .intPtr]⟩,
  ⟨"audionode_get_number_of_outputs", .constCharPtr, [.voidPtr, .intPtr]⟩
]

/-- Block 3 of the header transcription (see `macaudioHeader`). -/
def macaudioHeaderC : List CDecl := [
  ⟨"audionode_is_installed_on_engine", .constCharPtr, [.voidPtr, .boolPtr]⟩,
  ⟨"audionode_log_info", .constCharPtr, [.voidPtr]⟩,
  ⟨"audionode_release", .constCharPtr, [.voidPtr]⟩,
  ⟨"audiomixer_create", .structVal "AudioNodeResult", []⟩,
  ⟨"audiomixer_set_volume", .constCharPtr, [.voidPtr, .float, .int]⟩,
  ⟨"audiomixer_set_pan", .constCharPtr, [.voidPtr, .float, .int]⟩,
  ⟨"audiomixer_get_volume", .constCharPtr, [.voidPtr, .int, .floatPtr]⟩,
  ⟨"audiomixer_get_pan", .constCharPtr, [.voidPtr, .int, .floatPtr]⟩,
  ⟨"audiomixer_release", .constCharPtr, [.voidPtr]⟩,
  ⟨"audiomixer_set_input_volume_for_connection", .constCharPtr,
    [.voidPtr, .voidPtr, .int, .float]⟩,
  ⟨"audiomixer_get_input_volume_for_connection", .constCharPtr,
    [.voidPtr, .voidPtr, .int, .floatPtr]⟩,
  ⟨"audiomixer_set_input_pan_for_connection", .constCharPtr,
    [.voidPtr, .voidPtr, .int, .float]⟩,
  ⟨"audiomixer_get_input_pan_for_connection", .constCharPtr,
    [.voidPtr, .voidPtr, .int, .floatPtr]⟩,
  ⟨"matrixmixer_create", .structVal "AudioNodeResult", []⟩,
  ⟨"matrixmixer_configure_invert", .constCharPtr, [.voidPtr]⟩,
  ⟨"matrixmixer_set_gain", .constCharPtr, [.voidPtr, .int, .int, .float]⟩,
  ⟨"matrixmixer_get_gain", .constCharPtr, [.voidPtr, .int, .int, .floatPtr]⟩,
  ⟨"matrixmixer_clear_matrix", .constCharPtr, [.voidPtr]⟩,
  ⟨"matrixmixer_set_identity", .constCharPtr, [.voidPtr]⟩,
  ⟨"matrixmixer_set_constant_power_pan", .constCharPtr, [.voidPtr, .int, .float]⟩
]

/-- Block 4 of the header transcription (see `macaudioHeader`). -/
def macaudioHeaderD : List CDecl := [
  ⟨"matrixmixer_set_linear_pan", .constCharPtr, [.voidPtr, .int, .float]⟩,
  ⟨"tap_init", .void, []⟩,
  ⟨"tap_install", .constCharPtr, [.voidPtr, .voidPtr, .int, .constCharPtr]⟩,
  ⟨"tap_remove", .constCharPtr, [.constCharPtr]⟩,
  ⟨"tap_get_info", .constCharPtr, [.constCharPtr, .ptr "TapInfo"]⟩,
  ⟨"tap_get_rms", .constCharPtr, [.constCharPtr, .doublePtr]⟩,
  ⟨"tap_get_frame_count", .constCharPtr, [.constCharPtr, .intPtr]⟩,
  ⟨"tap_remove_all", .constCharPtr, []⟩,
  ⟨"tap_get_active_count", .constCharPtr, [.intPtr]⟩,
  ⟨"audioplayer_new", .structVal "PlayerResult", [.voidPtr]⟩,
  ⟨"audioplayer_load_file", .constCharPtr, [.ptr "AudioPlayer", .constCharPtr]⟩,
  ⟨"audioplayer_play", .constCharPtr, [.ptr "AudioPlayer"]⟩,
  ⟨"audioplayer_play_at_time", .constCharPtr, [.ptr "AudioPlayer", .double]⟩,
  ⟨"audioplayer_pause", .constCharPtr, [.ptr "AudioPlayer"]⟩,
  ⟨"audioplayer_stop", .constCharPtr, [.ptr "AudioPlayer"]⟩,
  ⟨"audioplayer_is_playing", .constCharPtr, [.ptr "AudioPlayer", .boolPtr]⟩,
  ⟨"audioplayer_get_duration", .constCharPtr, [.ptr "AudioPlayer", .doublePtr]⟩,
  ⟨"audioplayer_get_current_time", .constCharPtr, [.ptr "AudioPlayer", .doublePtr]⟩,
  ⟨"audioplayer_seek_to_time", .constCharPtr, [.ptr "AudioPlayer", .double]⟩,
  ⟨"audioplayer_set_volume", .constCharPtr, [.ptr "AudioPlayer", .float]⟩
]

/-- Block 5 of the header transcription (see `macaudioHeader`). -/
def macaudioHeaderE : List CDecl := [
  ⟨"audioplayer_get_volume", .constCharPtr, [.ptr "AudioPlayer", .floatPtr]⟩,
  ⟨"audioplayer_set_pan", .constCharPtr, [.ptr "AudioPlayer", .float]⟩,
  ⟨"audioplayer_get_pan", .constCharPtr, [.ptr "AudioPlayer", .floatPtr]⟩,
  ⟨"audioplayer_set_playback_rate", .constCharPtr, [.ptr "AudioPlayer", .float]⟩,
  ⟨"audioplayer_get_playback_rate", .constCharPtr, [.ptr "AudioPlayer", .floatPtr]⟩,
  ⟨"audioplayer_set_pitch", .constCharPtr, [.ptr "AudioPlayer", .float]⟩,
  ⟨"audioplayer_get_pitch", .constCharPtr, [.ptr "AudioPlayer", .floatPtr]⟩,
  ⟨"audioplayer_enable_time_pitch_effects", .constCharPtr, [.ptr "AudioPlayer"]⟩,
  ⟨"audioplayer_disable_time_pitch_effects", .constCharPtr, [.ptr "AudioPlayer"]⟩,
  ⟨"audioplayer_is_time_pitch_effects_enabled", .constCharPtr,
    [.ptr "AudioPlayer", .boolPtr]⟩,
  ⟨"audioplayer_get_time_pitch_node_ptr", .structVal "PlayerResult", [.ptr "AudioPlayer"]⟩,
  ⟨"audioplayer_get_node_ptr", .structVal "PlayerResult", [.ptr "AudioPlayer"]⟩,
  ⟨"audioplayer_get_file_info", .constCharPtr,
    [.ptr "AudioPlayer", .doublePtr, .intPtr, .constCharPtrPtr]⟩,
  ⟨"audioplayer_analyze_buffer_at_time", .structVal "AudioBufferMetrics",
    [.ptr "AudioPlayer", .double]⟩,
  ⟨"audioplayer_analyze_file_segment", .constCharPtr,
    [.ptr "AudioPlayer", .double, .double, .doublePtr, .intPtr]⟩,
  ⟨"audioplayer_destroy", .void, [.ptr "AudioPlayer"]⟩,
  ⟨"macaudio_setup_config_monitoring", .void, [.voidPtr]⟩,
  ⟨"macaudio_cleanup_config_monitoring", .void, []⟩,
  ⟨"macaudio_simulate_hotplug", .void, [.voidPtr]⟩
]

/-- The function declarations of `src/native/macaudio.h` and
`src/session/native/session.h`, transcribed in source order (split into
blocks only to keep elaboration fast). -/
def macaudioHeader : List CDecl :=
  macaudioHeaderA ++ macaudioHeaderB ++ macaudioHeaderC ++ macaudioHeaderD ++ macaudioHeaderE

/-- Look a declaration up in the transcribed header by its C name. -/
def headerFind (n : String) : Option CDecl :=
  macaudioHeader.find? (fun d => d.name == n)

/-- Modelled from the spec: the Format value (§3) — sample rate, channel
count, interleaving; the implementation behind `audioformat_new_with_channels`
is not in the repository.  The float64 sample rate is modelled as `ℚ`. -/
structure AudioFormatV where
  sampleRate : ℚ
  channelCount : ℤ
  interleaved : Bool
  deriving DecidableEq, Repr

/-- Modelled from the spec: `create(sampleRate, channels, interleaved)` fails
with `InvalidFormat` when sampleRate ≤ 0 or channels < 1 (§4.1). -/
def audioformat_new_with_channels (sampleRate : ℚ) (channels : ℤ)
    (interleaved : Bool) : Except Err AudioFormatV :=
  if sampleRate ≤ 0 ∨ channels < 1 then .error .invalidFormat
  else .ok ⟨sampleRate, channels, interleaved⟩

/-- Modelled from the spec: `equals(a, b)` is pure structural comparison with
no tolerance on the sample rate (§4.1). -/
def audioformat_is_equal (a b : AudioFormatV) : Bool :=
  a.sampleRate == b.sampleRate && a.channelCount == b.channelCount &&
    a.interleaved == b.interleaved

/-- Modelled from the spec: node kinds of the graph (§3). -/
inductive NodeKind
  | source
  | mixer
  | matrixMixer
  | playerSource
  | sink
  deriving DecidableEq, Repr

/-- Modelled from the spec: a graph node with its bus counts and attachment
flag (§3); the node objects behind the header's `void*` handles are opaque. -/
structure GNode where
  id : ℕ
  kind : NodeKind
  attached : Bool
  inputBuses : ℕ
  outputBuses : ℕ
  deriving DecidableEq, Repr

/-- Modelled from the spec: a directed connection
(sourceNode, sourceBus) → (destNode, destBus) (§3). -/
structure Connection where
  src : ℕ
  srcBus : ℕ
  dst : ℕ
  dstBus : ℕ
  deriving DecidableEq, Repr

/-- Modelled from the spec: engine lifecycle states (§3). -/
inductive EngineState
  | stopped
  | prepared
  | running
  | paused
  deriving DecidableEq, Repr

/-- Modelled from the spec: the engine owns the node set and connection set,
has a lifecycle state and a distinguished Sink (§3); whether the output
device can be opened is modelled by the flag `hwAvailable` (§4.2). -/
structure Engine where
  nodes : List GNode
  connections : List Connection
  sinkId : ℕ
  state : EngineState
  hwAvailable : Bool
  deriving DecidableEq, Repr

/-- Direct successors of a node along the connection set. -/
def succs (conns : List Connection) (a : ℕ) : List ℕ :=
  (conns.filter (fun c => c.src == a)).map (fun c => c.dst)

/-- One breadth-first expansion of the set of reached nodes. -/
def reachStep (conns : List Connection) (acc : List ℕ) : List ℕ :=
  acc ++ ((acc.flatMap (succs conns)).filter (fun b => !(acc.contains b)))

/-- Iterated expansion with explicit fuel. -/
def reachN (conns : List Connection) : ℕ → List ℕ → List ℕ
  | 0, acc => acc
  | n + 1, acc => reachN conns n (reachStep conns acc)

/-- `reaches conns fuel a b`: a directed path from `a` to `b` exists along
`conns` (fuel at least the node count suffices). -/
def reaches (conns : List Connection) (fuel : ℕ) (a b : ℕ) : Bool :=
  (reachN conns fuel [a]).contains b

/-- Sources are the signal-producing node kinds (§3: Source, PlayerSource). -/
def isSource : NodeKind → Bool
  | .source => true
  | .playerSource => true
  | _ => false

/-- Modelled from the spec: the graph is startable when every attached Source
has a path to the Sink (§3, §4.2). -/
def graphComplete (e : Engine) : Bool :=
  e.nodes.all fun n =>
    !(isSource n.kind && n.attached) ||
      reaches e.connections e.nodes.length n.id e.sinkId

/-- Modelled from the spec: `start()` transitions Stopped/Prepared → Running;
fails with `GraphIncomplete` if no path exists from some attached Source to
the Sink, or `HardwareUnavailable` if the output device cannot be opened
(§4.2); a failed start leaves the engine unchanged.  The implementation
behind `audioengine_start` is not in the repository. -/
def audioengine_start (e : Engine) : Engine × Option Err :=
  match e.state with
  | .stopped | .prepared =>
    if graphComplete e then
      if e.hwAvailable then ({ e with state := .running }, none)
      else (e, some .hardwareUnavailable)
    else (e, some .graphIncomplete)
  | _ => (e, some .invalidState)

/-- Find a node of the engine by id. -/
def findNode (e : Engine) (i : ℕ) : Option GNode :=
  e.nodes.find? (fun n => n.id == i)

/-- Whether the node with id `i` exists and is attached to the engine. -/
def nodeAttached (e : Engine) (i : ℕ) : Bool :=
  match findNode e i with
  | some n => n.attached
  | none => false

/-- Whether `bus` is a valid output bus index of node `i`. -/
def validOutputBus (e : Engine) (i bus : ℕ) : Bool :=
  match findNode e i with
  | some n => bus < n.outputBuses
  | none => false

/-- Whether `bus` is a valid input bus index of node `i`. -/
def validInputBus (e : Engine) (i bus : ℕ) : Bool :=
  match findNode e i with
  | some n => bus < n.inputBuses
  | none => false

/-- Whether some connection already ends at destination bus `(d, db)`. -/
def busOccupied (conns : List Connection) (d db : ℕ) : Bool :=
  conns.any fun c => c.dst == d && c.dstBus == db

/-- Modelled from the spec: `connect(source, sourceBus, dest, destBus)` fails
with `BusOutOfRange` or `DestinationBusOccupied`; each destination bus
accepts at most one incoming connection (§3, §4.2).  The implementation
behind `audioengine_connect` is not in the repository. -/
def audioengine_connect (e : Engine) (s sb d db : ℕ) : Engine × Option Err :=
  if !(nodeAttached e s) || !(nodeAttached e d) then (e, some .nodeNotAttached)
  else if !(validOutputBus e s sb) || !(validInputBus e d db) then
    (e, some .busOutOfRange)
  else if busOccupied e.connections d db then (e, some .destinationBusOccupied)
  else ({ e with connections := ⟨s, sb, d, db⟩ :: e.connections }, none)

/-- Modelled from the spec: `disconnectInput(node, bus)` removes the
connection ending at that destination bus, and is an idempotent no-op when
nothing was connected (§4.2).  The implementation behind
`audioengine_disconnect_node_input` is not in the repository. -/
def audioengine_disconnect_node_input (e : Engine) (d db : ℕ) :
    Engine × Option Err :=
  ({ e with connections :=
      e.connections.filter fun c => !(c.dst == d && c.dstBus == db) }, none)

/-- Modelled from the spec: the per-bus volume/pan state of a mixer node
(§4.2); float controls are modelled as `ℚ`. -/
structure MixerBusState where
  volume : ℚ
  pan : ℚ
  deriving DecidableEq, Repr

/-- Modelled from the spec: a mixer node's control state, one entry per
input bus. -/
structure Mixer where
  buses : ℕ → MixerBusState

/-- Clamp `x` into the closed interval `[lo, hi]`. -/
def clampQ (lo hi x : ℚ) : ℚ := max lo (min hi x)

/-- Modelled from the spec: `setVolume(bus, value)` clamps the value into
[0,1] at the boundary rather than erroring (§4.2, §6).  The implementation
behind `audiomixer_set_volume` is not in the repository. -/
def audiomixer_set_volume (m : Mixer) (bus : ℕ) (v : ℚ) : Mixer :=
  ⟨fun b => if b = bus then { m.buses bus with volume := clampQ 0 1 v }
            else m.buses b⟩

/-- Modelled from the spec: `setPan(bus, value)` clamps the value into
[-1,1] at the boundary rather than erroring (§4.2, §6). -/
def audiomixer_set_pan (m : Mixer) (bus : ℕ) (p : ℚ) : Mixer :=
  ⟨fun b => if b = bus then { m.buses bus with pan := clampQ (-1) 1 p }
            else m.buses b⟩

/-- Modelled from the spec: read back the volume of an input bus. -/
def audiomixer_get_volume (m : Mixer) (bus : ℕ) : ℚ := (m.buses bus).volume

/-- Modelled from the spec: read back the pan of an input bus. -/
def audiomixer_get_pan (m : Mixer) (bus : ℕ) : ℚ := (m.buses bus).pan

/-- Modelled from the spec: a matrix mixer's explicit gain matrix indexed by
(inputChannel, outputChannel) (§4.2); gains are real numbers since the pan
laws use trigonometric functions. -/
structure MatrixMixer where
  gain : ℕ → ℕ → ℝ

/-- Modelled from the spec: `getGain(inputChannel, outputChannel)` reads one
matrix entry; the implementation behind `matrixmixer_get_gain` is not in
the repository. -/
def matrixmixer_get_gain (m : MatrixMixer) (i j : ℕ) : ℝ := m.gain i j

/-- The quarter-circle angle for a pan position in [-1,1]: -1 ↦ 0,
0 ↦ π/4, 1 ↦ π/2. -/
noncomputable def panAngle (pan : ℝ) : ℝ := (pan + 1) * Real.pi / 4

/-- Modelled from the spec: `setConstantPowerPan(inputChannel, panPosition)`
writes the full row of gains for that input channel using the standard
equal-power cos/sin quarter-circle law — left (output 0) gets `cos`, right
(output 1) gets `sin` of the quarter-circle angle (§4.2, §8).  The
implementation behind `matrixmixer_set_constant_power_pan` is not in the
repository. -/
noncomputable def matrixmixer_set_constant_power_pan (m : MatrixMixer)
    (i : ℕ) (pan : ℝ) : MatrixMixer :=
  ⟨fun r c =>
    if r = i then
      if c = 0 then Real.cos (panAngle pan)
      else if c = 1 then Real.sin (panAngle pan)
      else 0
    else m.gain r c⟩

/-- Modelled from the spec: one registered tap — target engine, node, bus,
and its running frame count and RMS metric (§3, §4.3). -/
structure TapEntry where
  engine : ℕ
  node : ℕ
  bus : ℕ
  frameCount : ℕ
  rms : ℚ
  deriving DecidableEq, Repr

/-- Modelled from the spec: the process-wide tap registry, a key-indexed
store of tap entries (§4.3, §9: global, process-wide state). -/
abbrev TapRegistry : Type := List (String × TapEntry)

/-- Look a tap up by its key. -/
def tap_lookup (r : TapRegistry) (key : String) : Option (String × TapEntry) :=
  r.find? (fun kv => kv.1 == key)

/-- Modelled from the spec: `install(node, bus, key)` fails with
`DuplicateKey` if the key is already registered, `NodeNotAttached` if the
node has no engine; on success it registers a fresh observer with zeroed
metrics (§4.3).  The implementation behind `tap_install` is not in the
repository. -/
def tap_install (r : TapRegistry) (engine node bus : ℕ)
    (attachedToEngine : Bool) (key : String) : TapRegistry × Option Err :=
  if (tap_lookup r key).isSome then (r, some .duplicateKey)
  else if !attachedToEngine then (r, some .nodeNotAttached)
  else ((key, ⟨engine, node, bus, 0, 0⟩) :: r, none)

/-- Modelled from the spec: `remove(key)` deletes the tap with that key from
the global registry, idempotently (§4.3). -/
def tap_remove (r : TapRegistry) (key : String) : TapRegistry :=
  r.filter fun kv => !(kv.1 == key)

/-- Modelled from the spec: `removeAll()` empties the whole process-wide
registry (§4.3, §8). -/
def tap_remove_all (_ : TapRegistry) : TapRegistry := []

/-- Modelled from the spec: `getActiveCount()` returns the live registry
size (§4.3). -/
def tap_get_active_count (r : TapRegistry) : ℕ := r.length

/-- Modelled from the spec: `getFrameCount(key)` reads the cumulative frame
count of the tap with that key (§4.3). -/
def tap_get_frame_count (r : TapRegistry) (key : String) : Option ℕ :=
  (tap_lookup r key).map (fun kv => kv.2.frameCount)

/-- Modelled from the spec: the render thread delivering `n` further frames
to the tap with key `key` adds them to its cumulative frame count (§4.3:
measurement over frames observed since install). -/
def observeFrames (r : TapRegistry) (key : String) (n : ℕ) : TapRegistry :=
  r.map fun kv =>
    if kv.1 == key then
      (kv.1, { kv.2 with frameCount := kv.2.frameCount + n })
    else kv

/-- Modelled from the spec: one render-thread step while audio is flowing —
some tap observes a batch of frames; control operations (install/remove)
are not part of flowing audio. -/
def RenderStep (r r' : TapRegistry) : Prop :=
  ∃ key n, r' = observeFrames r key n

/-- Modelled from the spec: a tap registry evolving only by render activity
(reflexive-transitive closure of `RenderStep`). -/
def AudioFlows : TapRegistry → TapRegistry → Prop :=
  Relation.ReflTransGen RenderStep

/-- Modelled from the spec: the player's control-visible state — whether a
file is loaded, its decoded duration, current position, playing flag (§3,
§4.4); times are modelled as `ℚ`. -/
structure Player where
  loaded : Bool
  duration : ℚ
  position : ℚ
  playing : Bool
  deriving DecidableEq, Repr

/-- Modelled from the spec: `seek(t)` repositions without changing the
play/pause state and fails with `OutOfRange` if `t` exceeds the duration
(§4.4); a failed seek leaves the player unchanged.  The implementation
behind `audioplayer_seek_to_time` is not in the repository. -/
def audioplayer_seek_to_time (p : Player) (t : ℚ) : Player × Option Err :=
  if !p.loaded then (p, some .notLoaded)
  else if t > p.duration then (p, some .outOfRange)
  else ({ p with position := t }, none)

/-- Modelled from the spec: `getCurrentTime()` reports the playback
position; the implementation behind `audioplayer_get_current_time` is not
in the repository. -/
def audioplayer_get_current_time (p : Player) : ℚ := p.position

/-- C2: Format creation succeeds for sampleRate > 0 and channels ≥ 1, and
`equals` on two formats created from the same parameters is true; two created
formats differing in exactly one parameter compare unequal (exact structural
comparison, no tolerance on the sample rate); creation fails with
`InvalidFormat` when sampleRate ≤ 0 or channels < 1. -/
theorem format_create_equals_spec :
    (∀ (sr : ℚ) (ch : ℤ) (il : Bool), 0 < sr → 1 ≤ ch →
      ∃ f g, audioformat_new_with_channels sr ch il = .ok f ∧
        audioformat_new_with_channels sr ch il = .ok g ∧
        audioformat_is_equal f g = true) ∧
    (∀ (sr sr' : ℚ) (ch ch' : ℤ) (il il' : Bool) (f f' : AudioFormatV),
      audioformat_new_with_channels sr ch il = .ok f →
      audioformat_new_with_channels sr' ch' il' = .ok f' →
      ((sr ≠ sr' ∧ ch = ch' ∧ il = il') ∨ (sr = sr' ∧ ch ≠ ch' ∧ il = il') ∨
        (sr = sr' ∧ ch = ch' ∧ il ≠ il')) →
      audioformat_is_equal f f' = false) ∧
    (∀ (sr : ℚ) (ch : ℤ) (il : Bool), sr ≤ 0 ∨ ch < 1 →
      audioformat_new_with_channels sr ch il = .error .invalidFormat) := by
  refine ⟨?_, ?_, ?_⟩
  · intro sr ch il h1 h2
    have hcond : ¬(sr ≤ 0 ∨ ch < 1) := by
      push_neg
      exact ⟨h1, h2⟩
    refine ⟨⟨sr, ch, il⟩, ⟨sr, ch, il⟩, ?_, ?_, ?_⟩
    · rw [audioformat_new_with_channels, if_neg hcond]
    · rw [audioformat_new_with_channels, if_neg hcond]
    · simp [audioformat_is_equal]
  · intro sr sr' ch ch' il il' f f' hf hf' hdiff
    rw [audioformat_new_with_channels] at hf hf'
    by_cases h1 : sr ≤ 0 ∨ ch < 1
    · rw [if_pos h1] at hf
      exact absurd hf (by simp)
    rw [if_neg h1] at hf
    by_cases h2 : sr' ≤ 0 ∨ ch' < 1
    · rw [if_pos h2] at hf'
      exact absurd hf' (by simp)
    rw [if_neg h2] at hf'
    injection hf with hf
    injection hf' with hf'
    subst hf
    subst hf'
    rw [Bool.eq_false_iff]
    intro hcontra
    rw [audioformat_is_equal] at hcontra
    simp only [Bool.and_eq_true, beq_iff_eq] at hcontra
    obtain ⟨⟨e1, e2⟩, e3⟩ := hcontra
    rcases hdiff with ⟨h, _, _⟩ | ⟨_, h, _⟩ | ⟨_, _, h⟩ <;> exact h (by assumption)
  · intro sr ch il h
    rw [audioformat_new_with_channels, if_pos h]

/-- Witness for C2 at concrete inputs: creation at (48000, 2, interleaved)
succeeds and is `equals`-reflexive, formats from (48000, 2, true) and
(44100, 2, true) compare unequal, and creation at sample rate 0 fails. -/
theorem format_create_equals_spec_witness :
    (∃ f g, audioformat_new_with_channels 48000 2 true = .ok f ∧
      audioformat_new_with_channels 48000 2 true = .ok g ∧
      audioformat_is_equal f g = true) ∧
    audioformat_is_equal ⟨48000, 2, true⟩ ⟨44100, 2, true⟩ = false ∧
    audioformat_new_with_channels 0 2 true = .error .invalidFormat :=
  ⟨format_create_equals_spec.1 48000 2 true (by norm_num) (by norm_num),
   format_create_equals_spec.2.1 48000 44100 2 2 true true _ _ rfl
     rfl (Or.inl ⟨by norm_num, rfl, rfl⟩),
   format_create_equals_spec.2.2 0 2 true (Or.inl le_rfl)⟩

/-- C3: `setVolume` clamps any value into [0,1] and `setPan` into [-1,1]
rather than erroring; after `setVolume(bus, 1.5)` the read-back volume is
1.0, and after `setPan(bus, -2.0)` the read-back pan is -1.0. -/
theorem audiomixer_clamp_spec (m : Mixer) (bus : ℕ) :
    (∀ v : ℚ, 0 ≤ audiomixer_get_volume (audiomixer_set_volume m bus v) bus ∧
      audiomixer_get_volume (audiomixer_set_volume m bus v) bus ≤ 1) ∧
    (∀ p : ℚ, -1 ≤ audiomixer_get_pan (audiomixer_set_pan m bus p) bus ∧
      audiomixer_get_pan (audiomixer_set_pan m bus p) bus ≤ 1) ∧
    audiomixer_get_volume (audiomixer_set_volume m bus (3 / 2)) bus = 1 ∧
    audiomixer_get_pan (audiomixer_set_pan m bus (-2)) bus = -1 := by
  refine ⟨?_, ?_, ?_, ?_⟩
  · intro v
    simp only [audiomixer_get_volume, audiomixer_set_volume, if_pos rfl, clampQ]
    exact ⟨le_max_left 0 _, max_le zero_le_one (min_le_left 1 v)⟩
  · intro p
    simp only [audiomixer_get_pan, audiomixer_set_pan, if_pos rfl, clampQ]
    refine ⟨le_max_left (-1) _, max_le (by norm_num) (min_le_left 1 p)⟩
  · simp only [audiomixer_get_volume, audiomixer_set_volume, if_pos rfl, clampQ]
    norm_num
  · simp only [audiomixer_get_pan, audiomixer_set_pan, if_pos rfl, clampQ]
    norm_num

/-- C7: for a loaded player, `seek(t)` with `t` above the duration fails
with `OutOfRange` and leaves the player (including its position) unchanged;
`seek(t)` with 0 ≤ t ≤ duration succeeds, preserves the play/pause state,
and a subsequent `getCurrentTime` returns exactly `t`. -/
theorem audioplayer_seek_spec (p : Player) (t : ℚ) (hl : p.loaded = true) :
    (t > p.duration → audioplayer_seek_to_time p t = (p, some .outOfRange)) ∧
    (0 ≤ t → t ≤ p.duration →
      (audioplayer_seek_to_time p t).2 = none ∧
      (audioplayer_seek_to_time p t).1.playing = p.playing ∧
      (audioplayer_seek_to_time p t).1.loaded = p.loaded ∧
      (audioplayer_seek_to_time p t).1.duration = p.duration ∧
      audioplayer_get_current_time (audioplayer_seek_to_time p t).1 = t) := by
  constructor
  · intro hgt
    rw [audioplayer_seek_to_time]
    simp [hl, hgt]
  · intro h0 hle
    have hngt : ¬ t > p.duration := not_lt.mpr hle
    rw [audioplayer_seek_to_time]
    simp [hl, hngt, audioplayer_get_current_time]

/-- Witness for C7: a loaded player with duration 10.0 rejects `seek(15.0)`
with `OutOfRange` unchanged, while `seek(5.0)` succeeds and `getCurrentTime`
then reads 5.0. -/
theorem audioplayer_seek_spec_witness :
    audioplayer_seek_to_time ⟨true, 10, 0, false⟩ 15 =
      (⟨true, 10, 0, false⟩, some Err.outOfRange) ∧
    (audioplayer_seek_to_time ⟨true, 10, 0, false⟩ 5).2 = none ∧
    (audioplayer_seek_to_time ⟨true, 10, 0, false⟩ 5).1.playing = false ∧
    audioplayer_get_current_time
      (audioplayer_seek_to_time ⟨true, 10, 0, false⟩ 5).1 = 5 :=
  ⟨(audioplayer_seek_spec ⟨true, 10, 0, false⟩ 15 rfl).1 (by norm_num),
   ((audioplayer_seek_spec ⟨true, 10, 0, false⟩ 5 rfl).2 (by norm_num)
     (by norm_num)).1,
   ((audioplayer_seek_spec ⟨true, 10, 0, false⟩ 5 rfl).2 (by norm_num)
     (by norm_num)).2.1,
   ((audioplayer_seek_spec ⟨true, 10, 0, false⟩ 5 rfl).2 (by norm_num)
     (by norm_num)).2.2.2.2⟩

/-- C1: on an engine in state Stopped whose graph has some attached Source
with no path to the Sink, `start()` fails with `GraphIncomplete` and the
engine — its state (still Stopped), node set and connection set — is
unchanged. -/
theorem audioengine_start_graph_incomplete (e : Engine)
    (hstop : e.state = .stopped)
    (h : ∃ n ∈ e.nodes, isSource n.kind = true ∧ n.attached = true ∧
      reaches e.connections e.nodes.length n.id e.sinkId = false) :
    audioengine_start e = (e, some .graphIncomplete) ∧
    (audioengine_start e).1.state = .stopped ∧
    (audioengine_start e).1.nodes = e.nodes ∧
    (audioengine_start e).1.connections = e.connections := by
  have hgc : graphComplete e = false := by
    rw [graphComplete, List.all_eq_false]
    obtain ⟨n, hmem, hsrc, hatt, hreach⟩ := h
    exact ⟨n, hmem, by simp [hsrc, hatt, hreach]⟩
  have hmain : audioengine_start e = (e, some .graphIncomplete) := by
    rw [audioengine_start, hstop]
    simp [hgc]
  exact ⟨hmain, by rw [hmain, hstop], by rw [hmain], by rw [hmain]⟩

/-- Witness for C1: a stopped engine holding one attached Source and the
Sink with an empty connection set; `start()` returns `GraphIncomplete` and
the engine unchanged. -/
theorem audioengine_start_graph_incomplete_witness :
    audioengine_start
        ⟨[⟨0, .source, true, 0, 1⟩, ⟨1, .sink, true, 1, 0⟩], [], 1,
          .stopped, true⟩ =
      (⟨[⟨0, .source, true, 0, 1⟩, ⟨1, .sink, true, 1, 0⟩], [], 1,
          .stopped, true⟩, some Err.graphIncomplete) :=
  (audioengine_start_graph_incomplete _ rfl
    ⟨⟨0, .source, true, 0, 1⟩, by decide, rfl, rfl, by decide⟩).1

/-- C4: on any engine, connecting attached nodes on valid, unoccupied buses
and then disconnecting that destination bus returns the engine — in
particular its connection set — to exactly its pre-connect state. -/
theorem connect_disconnect_roundtrip (e : Engine) (s sb d db : ℕ)
    (hs : nodeAttached e s = true) (hd : nodeAttached e d = true)
    (hsb : validOutputBus e s sb = true) (hdb : validInputBus e d db = true)
    (hocc : busOccupied e.connections d db = false) :
    ∃ e', audioengine_connect e s sb d db = (e', none) ∧
      audioengine_disconnect_node_input e' d db = (e, none) := by
  refine ⟨{ e with connections := ⟨s, sb, d, db⟩ :: e.connections }, ?_, ?_⟩
  · rw [audioengine_connect]
    simp [hs, hd, hsb, hdb, hocc]
  · rw [audioengine_disconnect_node_input]
    have hkeep : ∀ c ∈ e.connections, (!(c.dst == d && c.dstBus == db)) = true := by
      intro c hc
      have hfalse : (c.dst == d && c.dstBus == db) = false := by
        by_contra hne
        have htrue : (c.dst == d && c.dstBus == db) = true := by
          cases hb : (c.dst == d && c.dstBus == db)
          · exact absurd hb hne
          · rfl
        have : busOccupied e.connections d db = true :=
          List.any_eq_true.mpr ⟨c, hc, htrue⟩
        rw [hocc] at this
        exact Bool.false_ne_true this
      rw [hfalse]
      rfl
    have hfilter :
        (((⟨s, sb, d, db⟩ : Connection) :: e.connections).filter
          fun c => !(c.dst == d && c.dstBus == db)) = e.connections := by
      rw [List.filter_cons]
      simp only [beq_self_eq_true, Bool.and_self, Bool.not_true, if_false]
      exact List.filter_eq_self.mpr hkeep
    simp only [hfilter]

/-- Witness for C4: a concrete two-node engine; connecting Source 0 (output
bus 0) to Sink 1 (input bus 0) and disconnecting that input returns the
empty connection set. -/
theorem connect_disconnect_roundtrip_witness :
    ∃ e', audioengine_connect
        ⟨[⟨0, .source, true, 0, 1⟩, ⟨1, .sink, true, 1, 0⟩], [], 1,
          .stopped, true⟩ 0 0 1 0 = (e', none) ∧
      audioengine_disconnect_node_input e' 1 0 =
        (⟨[⟨0, .source, true, 0, 1⟩, ⟨1, .sink, true, 1, 0⟩], [], 1,
          .stopped, true⟩, none) :=
  connect_disconnect_roundtrip _ 0 0 1 0 (by decide) (by decide) (by decide)
    (by decide) (by decide)

/-- C5: installing a tap under a key that is already registered fails with
`DuplicateKey` and leaves the registry unchanged, so `getActiveCount` reads
the same value as before the failed install. -/
theorem tap_install_duplicate (r : TapRegistry) (engine node bus : ℕ)
    (att : Bool) (key : String)
    (h : (tap_lookup r key).isSome = true) :
    tap_install r engine node bus att key = (r, some .duplicateKey) ∧
    tap_get_active_count (tap_install r engine node bus att key).1 =
      tap_get_active_count r := by
  have h1 : tap_install r engine node bus att key = (r, some .duplicateKey) := by
    rw [tap_install, if_pos h]
  exact ⟨h1, by rw [h1]⟩

/-- Witness for C5: a registry holding key "mic"; a second install under
"mic" (even for another engine and node) fails with `DuplicateKey` and the
registry is unchanged. -/
theorem tap_install_duplicate_witness :
    tap_install [("mic", ⟨0, 0, 0, 0, 0⟩)] 1 2 0 true "mic" =
      ([("mic", ⟨0, 0, 0, 0, 0⟩)], some Err.duplicateKey) ∧
    tap_get_active_count
        (tap_install [("mic", ⟨0, 0, 0, 0, 0⟩)] 1 2 0 true "mic").1 =
      tap_get_active_count [("mic", (⟨0, 0, 0, 0, 0⟩ : TapEntry))] :=
  tap_install_duplicate [("mic", ⟨0, 0, 0, 0, 0⟩)] 1 2 0 true "mic" rfl

/-- Looking a key up after a frame-observation pass is the observation
applied pointwise to the previous lookup result. -/
theorem tap_lookup_observeFrames (r : TapRegistry) (k key : String) (n : ℕ) :
    tap_lookup (observeFrames r k n) key =
      (tap_lookup r key).map fun kv =>
        if kv.1 == k then
          (kv.1, { kv.2 with frameCount := kv.2.frameCount + n })
        else kv := by
  rw [tap_lookup, observeFrames, List.find?_map]
  have hpf : ((fun kv : String × TapEntry => kv.1 == key) ∘ fun kv =>
      if kv.1 == k then (kv.1, { kv.2 with frameCount := kv.2.frameCount + n })
      else kv) = fun kv : String × TapEntry => kv.1 == key := by
    funext kv
    by_cases hk : (kv.1 == k) = true <;> simp [Function.comp, hk]
  rw [hpf]
  rfl

/-- Across one render step, a tap's frame count stays defined backwards: a
count read after the step dominates the count readable before it. -/
theorem frame_count_step (r r' : TapRegistry) (key : String) (c' : ℕ)
    (hstep : RenderStep r r')
    (h : tap_get_frame_count r' key = some c') :
    ∃ c, tap_get_frame_count r key = some c ∧ c ≤ c' := by
  obtain ⟨k, n, rfl⟩ := hstep
  rw [tap_get_frame_count, tap_lookup_observeFrames] at h
  cases hlook : tap_lookup r key with
  | none =>
    rw [hlook] at h
    exact absurd h (by simp)
  | some kv =>
    rw [hlook] at h
    refine ⟨kv.2.frameCount, ?_, ?_⟩
    · rw [tap_get_frame_count, hlook]
      rfl
    · by_cases hk : (kv.1 == k) = true
      · simp only [Option.map_some', if_pos hk] at h
        injection h with h
        omega
      · simp only [Option.map_some', if_neg hk] at h
        injection h with h
        omega

/-- C6: while audio is flowing (the registry evolves only by render-thread
frame observation), the frame count read for a fixed key is monotonically
non-decreasing: a later read is never smaller than an earlier one. -/
theorem tap_frame_count_monotone (r r' : TapRegistry) (key : String)
    (c c' : ℕ) (hflow : AudioFlows r r')
    (h1 : tap_get_frame_count r key = some c)
    (h2 : tap_get_frame_count r' key = some c') : c ≤ c' := by
  have hflow2 : Relation.ReflTransGen RenderStep r r' := hflow
  clear hflow
  induction hflow2 generalizing c' with
  | refl =>
    rw [h1] at h2
    injection h2 with h2
    omega
  | tail hab hstep ih =>
    obtain ⟨cb, hb, hle⟩ := frame_count_step _ _ key c' hstep h2
    exact le_trans (ih cb hb) hle

/-- Witness for C6: a one-tap registry at frame count 0; after a single
render step delivering 480 frames the read returns 480, and the theorem
yields 0 ≤ 480. -/
theorem tap_frame_count_monotone_witness :
    AudioFlows [("t", ⟨0, 0, 0, 0, 0⟩)]
        (observeFrames [("t", ⟨0, 0, 0, 0, 0⟩)] "t" 480) ∧
    tap_get_frame_count [("t", ⟨0, 0, 0, 0, 0⟩)] "t" = some 0 ∧
    tap_get_frame_count
        (observeFrames [("t", ⟨0, 0, 0, 0, 0⟩)] "t" 480) "t" = some 480 ∧
    0 ≤ 480 :=
  have hf : AudioFlows [("t", ⟨0, 0, 0, 0, 0⟩)]
      (observeFrames [("t", ⟨0, 0, 0, 0, 0⟩)] "t" 480) :=
    Relation.ReflTransGen.single ⟨"t", 480, rfl⟩
  ⟨hf, rfl, rfl,
    tap_frame_count_monotone _ _ "t" 0 480 hf rfl rfl⟩

/-- C8: `setConstantPowerPan` follows the equal-power cos/sin quarter-circle
law: panPosition 0.0 (centered) writes equal gains to the two output
channels of the row, panPosition 1.0 writes gain 0 to the left output
channel, and for every pan position the row is (cos, sin) of the
quarter-circle angle, whose squares sum to 1 (equal power). -/
theorem matrixmixer_constant_power_pan_spec (m : MatrixMixer) (i : ℕ) :
    matrixmixer_get_gain (matrixmixer_set_constant_power_pan m i 0) i 0 =
      matrixmixer_get_gain (matrixmixer_set_constant_power_pan m i 0) i 1 ∧
    matrixmixer_get_gain (matrixmixer_set_constant_power_pan m i 1) i 0 = 0 ∧
    (∀ pan : ℝ,
      matrixmixer_get_gain (matrixmixer_set_constant_power_pan m i pan) i 0 =
        Real.cos (panAngle pan) ∧
      matrixmixer_get_gain (matrixmixer_set_constant_power_pan m i pan) i 1 =
        Real.sin (panAngle pan) ∧
      matrixmixer_get_gain (matrixmixer_set_constant_power_pan m i pan) i 0 ^ 2 +
        matrixmixer_get_gain (matrixmixer_set_constant_power_pan m i pan) i 1 ^ 2
        = 1) := by
  have hget : ∀ pan : ℝ,
      matrixmixer_get_gain (matrixmixer_set_constant_power_pan m i pan) i 0 =
        Real.cos (panAngle pan) ∧
      matrixmixer_get_gain (matrixmixer_set_constant_power_pan m i pan) i 1 =
        Real.sin (panAngle pan) := by
    intro pan
    constructor <;>
      simp [matrixmixer_get_gain, matrixmixer_set_constant_power_pan]
  refine ⟨?_, ?_, ?_⟩
  · rw [(hget 0).1, (hget 0).2]
    have h : panAngle 0 = Real.pi / 4 := by
      rw [panAngle]
      ring
    rw [h, Real.cos_pi_div_four, Real.sin_pi_div_four]
  · rw [(hget 1).1]
    have h : panAngle 1 = Real.pi / 2 := by
      rw [panAngle]
      ring
    rw [h, Real.cos_pi_div_two]
  · intro pan
    refine ⟨(hget pan).1, (hget pan).2, ?_⟩
    rw [(hget pan).1, (hget pan).2]
    exact Real.cos_sq_add_sin_sq _

/-- C9: the header declares `audioengine_stop`, `audioengine_pause`,
`audioengine_reset` and `audioengine_destroy` (each exactly once) returning
`void` with the engine pointer as only parameter — so none of these four
lifecycle operations has any channel to report an error to the caller,
including `reset` called while the engine is not Stopped. -/
theorem engine_void_lifecycle_ops :
    headerFind "audioengine_stop" =
      some ⟨"audioengine_stop", .void, [.ptr "AudioEngine"]⟩ ∧
    headerFind "audioengine_pause" =
      some ⟨"audioengine_pause", .void, [.ptr "AudioEngine"]⟩ ∧
    headerFind "audioengine_reset" =
      some ⟨"audioengine_reset", .void, [.ptr "AudioEngine"]⟩ ∧
    headerFind "audioengine_destroy" =
      some ⟨"audioengine_destroy", .void, [.ptr "AudioEngine"]⟩ ∧
    (macaudioHeader.filter (fun d => d.name == "audioengine_stop")).length = 1 ∧
    (macaudioHeader.filter (fun d => d.name == "audioengine_pause")).length = 1 ∧
    (macaudioHeader.filter (fun d => d.name == "audioengine_reset")).length = 1 ∧
    (macaudioHeader.filter
      (fun d => d.name == "audioengine_destroy")).length = 1 :=
  ⟨rfl, rfl, rfl, rfl, rfl, rfl, rfl, rfl⟩

/-- C10: the header's tap operations `tap_remove`, `tap_get_info`,
`tap_get_rms`, `tap_get_frame_count`, `tap_remove_all` and
`tap_get_active_count` identify taps by the string key alone, with no
engine parameter; accordingly, in the registry model the store is a single
process-wide one: `removeAll` empties it regardless of which engines own
taps, removal by key acts across engines, and installing a key already
present fails with `DuplicateKey` whatever engine the new tap targets. -/
theorem tap_registry_global :
    headerFind "tap_remove" =
      some ⟨"tap_remove", .constCharPtr, [.constCharPtr]⟩ ∧
    headerFind "tap_get_info" =
      some ⟨"tap_get_info", .constCharPtr, [.constCharPtr, .ptr "TapInfo"]⟩ ∧
    headerFind "tap_get_rms" =
      some ⟨"tap_get_rms", .constCharPtr, [.constCharPtr, .doublePtr]⟩ ∧
    headerFind "tap_get_frame_count" =
      some ⟨"tap_get_frame_count", .constCharPtr, [.constCharPtr, .intPtr]⟩ ∧
    headerFind "tap_remove_all" =
      some ⟨"tap_remove_all", .constCharPtr, []⟩ ∧
    headerFind "tap_get_active_count" =
      some ⟨"tap_get_active_count", .constCharPtr, [.intPtr]⟩ ∧
    (∀ r : TapRegistry, tap_remove_all r = [] ∧
      tap_get_active_count (tap_remove_all r) = 0) ∧
    (∀ (r : TapRegistry) (key : String),
      tap_lookup (tap_remove r key) key = none) ∧
    (∀ (r : TapRegistry) (engine node bus : ℕ) (att : Bool) (key : String)
      (kv : String × TapEntry), tap_lookup r key = some kv →
      tap_install r engine node bus att key = (r, some Err.duplicateKey)) := by
  refine ⟨rfl, rfl, rfl, rfl, rfl, rfl, fun r => ⟨rfl, rfl⟩, ?_, ?_⟩
  · intro r key
    rw [tap_lookup, tap_remove]
    refine List.find?_eq_none.mpr ?_
    intro kv hkv
    have h2 := (List.mem_filter.mp hkv).2
    rw [Bool.not_eq_eq_eq_not, Bool.not_true] at h2
    rw [h2]
    exact Bool.false_ne_true
  · intro r engine node bus att key kv hlook
    rw [tap_install, if_pos (by rw [hlook]; rfl)]

/-- Witness for C10: a registry whose only tap belongs to engine 0; an
install of the same key targeting engine 1 fails with `DuplicateKey`. -/
theorem tap_registry_global_witness :
    tap_lookup [("k", (⟨0, 0, 0, 0, 0⟩ : TapEntry))] "k" =
      some ("k", ⟨0, 0, 0, 0, 0⟩) ∧
    tap_install [("k", ⟨0, 0, 0, 0, 0⟩)] 1 5 0 true "k" =
      ([("k", ⟨0, 0, 0, 0, 0⟩)], some Err.duplicateKey) :=
  ⟨rfl,
   tap_registry_global.2.2.2.2.2.2.2.2 [("k", ⟨0, 0, 0, 0, 0⟩)] 1 5 0 true "k"
     ("k", ⟨0, 0, 0, 0, 0⟩) rfl⟩
